/-
  Verification of the UI State Perception & Annotation Engine
  (Android / iOS / Chrome / Mac tree modules) of the agent repository.

  The Python modules are shallowly embedded: dictionaries with optional keys
  become structures with `Option` fields, Python string truthiness becomes
  `truthy`, Python floor division `//` becomes `Int.fdiv` (or `Nat` division
  on non-negative data), and a Python call that raises an uncaught exception
  is modelled as `Option.none` / `Except.error`.
-/
import Mathlib

set_option linter.all false

/-- Python truthiness of an optional string value (`None` and `""` are falsy). -/
def truthy : Option String → Bool
  | some s => s ≠ ""
  | none => false

/-- Python `str(...)` applied to an optional string: `None` prints as `"None"`. -/
def pyStr : Option String → String
  | some s => s
  | none => "None"

/-- A single-quote character, used by the serializers. -/
def sQuote : String := "\x27"

namespace Android

/-- Attribute bag of one `<node>` element of a uiautomator XML dump
    (`attributes.get(...)` returns `None` for a missing key). -/
structure NodeAttrs where
  text : Option String
  contentDesc : Option String
  className : Option String
  bounds : Option String
  visibleToUser : Option String
  enabled : Option String
deriving Repr, DecidableEq

/-- An XML element of the dump; every element of interest has tag `node`. -/
inductive Xml where
  | node (attrs : NodeAttrs) (children : List Xml)
deriving Repr

mutual

/-- Pre-order (document-order) listing of an element and its descendants. -/
def Xml.preorder : Xml → List NodeAttrs
  | .node a cs => a :: preorderList cs

/-- Pre-order listing of a forest of XML elements. -/
def preorderList : List Xml → List NodeAttrs
  | [] => []
  | t :: ts => t.preorder ++ preorderList ts

end

/-- Embeds `element_tree.findall('.//node[@visible-to-user="true"][@enabled="true"]')`:
    all descendants of the root, in document order, whose two attributes
    are both the exact string `"true"`. `doc` is the root's child forest. -/
def findallVisibleEnabled (doc : List Xml) : List NodeAttrs :=
  (preorderList doc).filter fun a =>
    a.visibleToUser == some "true" && a.enabled == some "true"

/-- Greedy run of ASCII digits (the `\d+` of the bounds regex). -/
def takeDigits : List Char → List Char × List Char
  | [] => ([], [])
  | c :: cs =>
    if c.isDigit then
      let (ds, rest) := takeDigits cs
      (c :: ds, rest)
    else ([], c :: cs)

/-- Decimal value of a digit run. -/
def digitsToNat (ds : List Char) : Nat :=
  ds.foldl (fun n c => n * 10 + (c.toNat - 48)) 0

/-- Consume one expected literal character. -/
def expectChar (c : Char) : List Char → Option (List Char)
  | [] => none
  | x :: xs => if x = c then some xs else none

/-- Consume a non-empty digit run, returning its value. -/
def expectDigits (cs : List Char) : Option (Nat × List Char) :=
  let (ds, rest) := takeDigits cs
  if ds.isEmpty then none else some (digitsToNat ds, rest)

/-- Attempt to match `\[(\d+),(\d+)]\[(\d+),(\d+)]` at the head of the input.
    The pattern is deterministic: each `\d+` is followed by a non-digit
    literal, so greedy matching needs no backtracking. -/
def matchBoundsAt (cs : List Char) : Option (Nat × Nat × Nat × Nat) := do
  let cs ← expectChar '[' cs
  let (x1, cs) ← expectDigits cs
  let cs ← expectChar ',' cs
  let (y1, cs) ← expectDigits cs
  let cs ← expectChar ']' cs
  let cs ← expectChar '[' cs
  let (x2, cs) ← expectDigits cs
  let cs ← expectChar ',' cs
  let (y2, cs) ← expectDigits cs
  let _ ← expectChar ']' cs
  pure (x1, y1, x2, y2)

/-- Embeds `re.search`: leftmost occurrence of the bounds pattern. -/
def searchBounds : List Char → Option (Nat × Nat × Nat × Nat)
  | [] => none
  | c :: cs =>
    match matchBoundsAt (c :: cs) with
    | some r => some r
    | none => searchBounds cs

/-- Embeds `extract_cordinates` (src/tree/utils.py): `re.search` the four-integer
    bracket pattern; on a match return the four integers, else fall off the
    end of the function (Python returns `None`). -/
def extract_cordinates (bounds : String) : Option (Nat × Nat × Nat × Nat) :=
  searchBounds bounds.data

/-- Embeds `get_center_cordinates` (src/tree/utils.py): integer floor division of
    the corner sums (all values are non-negative, so `Nat` division agrees
    with Python `//`). -/
def get_center_cordinates (c : Nat × Nat × Nat × Nat) : Nat × Nat :=
  ((c.1 + c.2.2.1) / 2, (c.2.1 + c.2.2.2) / 2)

/-- Embeds `BoundingBox` (src/tree/views.py). -/
structure BoundingBox where
  x1 : Nat
  y1 : Nat
  x2 : Nat
  y2 : Nat
deriving Repr, DecidableEq

/-- Embeds `CenterCord` (src/tree/views.py). -/
structure CenterCord where
  x : Nat
  y : Nat
deriving Repr, DecidableEq

/-- Embeds `ElementNode` (src/tree/views.py). `name` can be Python `None`
    (when both `text` and `content-desc` are falsy). -/
structure ElementNode where
  name : Option String
  coordinates : CenterCord
  bounding_box : BoundingBox
deriving Repr, DecidableEq

/-- Embeds `TreeState` (src/tree/views.py): the Android state holds only the
    interactive element list. -/
structure TreeState where
  interactive_elements : List ElementNode
deriving Repr, DecidableEq

/-- Embeds `CenterCord.to_string` (src/tree/views.py). -/
def CenterCord.to_string (c : CenterCord) : String :=
  "(" ++ toString c.x ++ "," ++ toString c.y ++ ")"

/-- Embeds `TreeState.to_string` (src/tree/views.py): one line per interactive
    element, `enumerate` starting at 0. -/
def TreeState.to_string (t : TreeState) : String :=
  String.intercalate "\n" (t.interactive_elements.enum.map fun p =>
    "Label: " ++ toString p.1 ++ " Name: " ++ pyStr p.2.name ++
      " Coordinates: " ++ p.2.coordinates.to_string)

/-- The loop-body condition of `Tree.get_interactive_elements`
    (src/tree/__init__.py line 30): truthy `text`, or truthy `content-desc`,
    or `class` a member of the interactive-class whitelist `wl`
    (Python `None in wl` is false for a whitelist of strings). -/
def isCandidate (wl : List String) (a : NodeAttrs) : Bool :=
  truthy a.text || truthy a.contentDesc ||
    (match a.className with
     | some c => wl.contains c
     | none => false)

/-- The body of `Tree.get_interactive_elements` for one candidate node
    (src/tree/__init__.py lines 31-39). `none` models an uncaught
    `TypeError`: `extract_cordinates(None)` raises inside `re.search`, and
    unpacking the `None` returned for a non-matching bounds string raises
    at `x1,y1,x2,y2 = ...`. -/
def processNode (a : NodeAttrs) : Option ElementNode := do
  let bs ← a.bounds
  let (x1, y1, x2, y2) ← extract_cordinates bs
  let name := if truthy a.text then a.text else a.contentDesc
  let (cx, cy) := get_center_cordinates (x1, y1, x2, y2)
  pure ⟨name, ⟨cx, cy⟩, ⟨x1, y1, x2, y2⟩⟩

/-- Embeds `Tree.get_interactive_elements` (src/tree/__init__.py lines 25-40),
    run on the selected node list. `none` models the call raising. -/
def get_interactive_elements (wl : List String) :
    List NodeAttrs → Option (List ElementNode)
  | [] => some []
  | a :: rest =>
    if isCandidate wl a then do
      let e ← processNode a
      let es ← get_interactive_elements wl rest
      pure (e :: es)
    else get_interactive_elements wl rest

/-- Embeds `Tree.get_state` (src/tree/__init__.py lines 21-23): build a `TreeState`
    from the interactive elements of the dumped hierarchy. -/
def get_state (wl : List String) (doc : List Xml) : Option TreeState :=
  (get_interactive_elements wl (findallVisibleEnabled doc)).map TreeState.mk

/-- Embeds `MobileState` (src/mobile/views.py), restricted to the `use_vision=False`
    path (no screenshot). -/
structure MobileState where
  tree_state : TreeState
deriving Repr, DecidableEq

/-- Embeds `Mobile.get_state` (src/mobile/__init__.py lines 20-32) with
    `use_vision=False`. Any exception — a failing hierarchy dump
    (`dump` is `Except.error`) or a per-node `TypeError` from bounds
    parsing — is caught and re-raised as `RuntimeError`, modelled as `none`:
    the call never degrades to an empty state. -/
def mobile_get_state (wl : List String) (dump : Except String (List Xml)) :
    Option MobileState :=
  match dump with
  | .error _ => none
  | .ok doc =>
    match get_state wl doc with
    | none => none
    | some ts => some ⟨ts⟩

/-- Modelled from the spec: the Android interactive-class whitelist
    `INTERACTIVE_CLASSES` of src/tree/config.py, which is absent from the
    sources; the spec describes it as "a fixed interactive-class whitelist
    (buttons, inputs, checkable widgets, etc.)". Every theorem below that
    depends on the whitelist quantifies over it; this constant only
    instantiates closed statements, whose outcomes do not depend on it. -/
def INTERACTIVE_CLASSES : List String :=
  ["android.widget.Button", "android.widget.ImageButton",
   "android.widget.EditText", "android.widget.CheckBox",
   "android.widget.RadioButton", "android.widget.Switch",
   "android.widget.ToggleButton", "android.widget.Spinner",
   "android.widget.SeekBar"]

/-- The rectangle-draw command of `Tree.annotated_screenshot`
    (src/tree/__init__.py lines 65-72): scale the box and shift it by the
    15-pixel padding. The Python scale is a float; the model takes an
    integer scale, at which `int(v * scale) = v * scale` exactly. -/
def adjustedBox (scale : Int) (b : BoundingBox) : Int × Int × Int × Int :=
  ((b.x1 : Int) * scale + 15, (b.y1 : Int) * scale + 15,
   (b.x2 : Int) * scale + 15, (b.y2 : Int) * scale + 15)

/-- The rectangle-draw commands issued by `Tree.annotated_screenshot`
    (src/tree/__init__.py lines 87-89): one box per given node, labelled by
    its 0-based position; no bounds check and no skipping. -/
def drawnBoxes (scale : Int) (nodes : List ElementNode) :
    List (Nat × (Int × Int × Int × Int)) :=
  nodes.enum.map fun p => (p.1, adjustedBox scale p.2.bounding_box)

/-- Size of the padded canvas produced by `Tree.annotated_screenshot`
    (lines 43-48): the screenshot scaled by `scale` plus 15 pixels of
    padding on every side. -/
def paddedCanvas (scale w h : Int) : Int × Int :=
  (w * scale + 30, h * scale + 30)

end Android

/-- Whether an axis-aligned rectangle with corners `(x1,y1)`-`(x2,y2)`
    (with `x1 ≤ x2`, `y1 ≤ y2`) covers at least one pixel of a `w × h`
    canvas; this is how PIL silently clips drawing commands. -/
def boxMeetsCanvas (w h : Int) (b : Int × Int × Int × Int) : Bool :=
  b.1 ≤ w - 1 && 0 ≤ b.2.2.1 && b.2.1 ≤ h - 1 && 0 ≤ b.2.2.2

namespace IOS

/-- A `frame` dictionary of a WebDriverAgent source node: each of the four
    keys may be absent (`frame.get(key, 0)` supplies the default). A present
    but empty dictionary is Python-falsy and is modelled as `none` at the
    `Option FrameD` layer, like a missing `frame` key. -/
structure FrameD where
  x : Option Int
  y : Option Int
  width : Option Int
  height : Option Int
deriving Repr, DecidableEq

/-- Embeds `frame.get('x', 0)` on a possibly missing/empty frame dictionary. -/
def getFX : Option FrameD → Int
  | some f => f.x.getD 0
  | none => 0

/-- Embeds `frame.get('y', 0)`. -/
def getFY : Option FrameD → Int
  | some f => f.y.getD 0
  | none => 0

/-- Embeds `frame.get('width', 0)`. -/
def getFW : Option FrameD → Int
  | some f => f.width.getD 0
  | none => 0

/-- Embeds `frame.get('height', 0)`. -/
def getFH : Option FrameD → Int
  | some f => f.height.getD 0
  | none => 0

/-- One node of the JSON source hierarchy (`node.get(...)` returns the
    default for absent keys). -/
inductive Src where
  | node (identifier name label ty : Option String) (frame : Option FrameD)
      (enabled visible : Option Bool) (children : List Src)
deriving Repr

/-- Embeds `IOSElement` (src/tree/__init__.py lines 14-56); `frame` stores the
    `abs_frame` computed by `_create_element`. -/
structure IOSElement where
  id : String
  name : String
  label : String
  className : String
  frame : Option FrameD
  enabled : Bool
  visible : Bool
  interactive : Bool
deriving Repr, DecidableEq

/-- Embeds `IOSElement.bounds`: `(x, y, width, height)` of the stored frame, each
    defaulted to 0 (the Python `int(...)` is the identity on integers). -/
def IOSElement.bounds (e : IOSElement) : Int × Int × Int × Int :=
  (getFX e.frame, getFY e.frame, getFW e.frame, getFH e.frame)

/-- Embeds `IOSElement.center`: `(x + width // 2, y + height // 2)` with Python
    floor division (`Int.fdiv`). -/
def IOSElement.center (e : IOSElement) : Int × Int :=
  (getFX e.frame + (getFW e.frame).fdiv 2, getFY e.frame + (getFH e.frame).fdiv 2)

/-- The corner rectangle `[x, y, x + width, y + height]` that
    `IOSTree.annotated_screenshot` draws for an element at scale 1
    (src/tree/__init__.py line 277). -/
def IOSElement.cornerBox (e : IOSElement) : Int × Int × Int × Int :=
  (getFX e.frame, getFY e.frame,
   getFX e.frame + getFW e.frame, getFY e.frame + getFH e.frame)

/-- Embeds `IOSTree.interactive_types` (src/tree/__init__.py lines 134-151). -/
def interactiveTypes : List String :=
  ["XCUIElementTypeButton", "XCUIElementTypeTextField",
   "XCUIElementTypeSecureTextField", "XCUIElementTypeTextView",
   "XCUIElementTypeSwitch", "XCUIElementTypeSlider", "XCUIElementTypeCell",
   "XCUIElementTypeLink", "XCUIElementTypeImage", "XCUIElementTypeTab",
   "XCUIElementTypeTabBar", "XCUIElementTypeNavigationBar",
   "XCUIElementTypeSearchField", "XCUIElementTypeSegmentedControl",
   "XCUIElementTypePicker", "XCUIElementTypePickerWheel"]

/-- The `interactive` expression of `IOSTree._create_element`
    (src/tree/__init__.py lines 231-238): enabled, visible, a whitelisted
    type, and positive width and height of the absolute frame. -/
def interactiveFlag (en vis : Bool) (className : String)
    (absFrame : Option FrameD) : Bool :=
  en && vis && interactiveTypes.contains className &&
    getFW absFrame > 0 && getFH absFrame > 0

/-- Embeds `IOSTree._create_element` (src/tree/__init__.py lines 207-252): when
    both the parent frame and the node's own frame are truthy, the absolute
    frame adds the parent frame's x/y offsets to the node's; otherwise the
    raw frame is kept. (The `except` branch returning `None` is unreachable
    in this typed model, so the element is returned directly.) -/
def create_element (identifier nm lb ty : Option String) (frame : Option FrameD)
    (enabled visible : Option Bool) (parentFrame : Option FrameD) : IOSElement :=
  let className := ty.getD ""
  let en := enabled.getD true
  let vis := visible.getD true
  let absFrame : Option FrameD :=
    match parentFrame, frame with
    | some pf, some f =>
      some ⟨some (f.x.getD 0 + pf.x.getD 0), some (f.y.getD 0 + pf.y.getD 0),
            some (f.width.getD 0), some (f.height.getD 0)⟩
    | _, _ => frame
  { id := identifier.getD "", name := nm.getD "", label := lb.getD "",
    className := className, frame := absFrame,
    enabled := en, visible := vis,
    interactive := interactiveFlag en vis className absFrame }

mutual

/-- Embeds `IOSTree._parse_elements` (src/tree/__init__.py lines 186-205):
    pre-order traversal; each child recursion receives `source.get('frame')`
    — the node's RAW frame as read from the dump, not the absolute frame
    just computed by `_create_element`. -/
def parse_elements : Src → Option FrameD → List IOSElement
  | .node idf nm lb ty fr en vis cs, parentFrame =>
    create_element idf nm lb ty fr en vis parentFrame :: parseList cs fr

/-- The `for child in children` loop of `_parse_elements`. -/
def parseList : List Src → Option FrameD → List IOSElement
  | [], _ => []
  | c :: rest, pf => parse_elements c pf ++ parseList rest pf

end

/-- Embeds `TreeState` (src/tree/__init__.py lines 59-65); the timestamp is not
    modelled. -/
structure TreeState where
  elements : List IOSElement
  interactive_elements : List IOSElement
  window_size : Int × Int
  orientation : String
deriving Repr, DecidableEq

/-- Embeds `IOSTree.get_state` (src/tree/__init__.py lines 149-184): the whole body
    is wrapped in `try`; `fetch` bundles everything obtained from the driver
    session (source, window size, orientation), and `Except.error` covers
    any exception, after which a minimal default state is returned. -/
def get_state (fetch : Except String (Src × (Int × Int) × String)) : TreeState :=
  match fetch with
  | .ok (src, ws, orient) =>
    let elements := parse_elements src none
    { elements := elements,
      interactive_elements := elements.filter (·.interactive),
      window_size := ws, orientation := orient }
  | .error _ =>
    { elements := [], interactive_elements := [],
      window_size := (375, 667), orientation := "PORTRAIT" }

/-- One line of the `Interactive Elements:` section of `TreeState.to_string`
    (src/tree/__init__.py lines 100-108): 1-based index, class name, the
    name quoted if truthy, the label bracketed if truthy, then
    `(x, y, width, height)` of `bounds`. -/
def interactiveLine (i : Nat) (e : IOSElement) : String :=
  let b := e.bounds
  toString (i + 1) ++ ". " ++ e.className ++
    (if e.name ≠ "" then " " ++ sQuote ++ e.name ++ sQuote else "") ++
    (if e.label ≠ "" then " [" ++ e.label ++ "]" else "") ++
    " at (" ++ toString b.1 ++ ", " ++ toString b.2.1 ++ ", " ++
    toString b.2.2.1 ++ ", " ++ toString b.2.2.2 ++ ")\n"

/-- The rectangle-draw commands of `IOSTree.annotated_screenshot`
    (src/tree/__init__.py lines 268-300): skip non-interactive nodes, scale
    each bound, draw `[x, y, x+width, y+height]` labelled `i + 1`. Modelled
    at integer scales, where `int(v * scale) = v * scale`. -/
def ios_drawn (scale : Int) (nodes : List IOSElement) :
    List (Nat × (Int × Int × Int × Int)) :=
  nodes.enum.filterMap fun p =>
    if !p.2.interactive then none
    else
      let x := getFX p.2.frame * scale
      let y := getFY p.2.frame * scale
      let w := getFW p.2.frame * scale
      let h := getFH p.2.frame * scale
      some (p.1 + 1, (x, y, x + w, y + h))

/-- Embeds `INTERACTIVE_ELEMENT_TYPES` (src/tree/config.py lines 8-28): the config
    whitelist, a strict superset of `IOSTree.interactive_types`. -/
def INTERACTIVE_ELEMENT_TYPES : List String :=
  interactiveTypes ++
    ["XCUIElementTypeCollectionView", "XCUIElementTypeTableView",
     "XCUIElementTypeScrollView"]

/-- Embeds `is_interactive_element` (src/tree/utils.py lines 11-36): pure predicate
    over type, frame, enabled and visible, with the 10-pixel minimum size of
    `MIN_INTERACTIVE_SIZE` (src/tree/config.py lines 31-34). -/
def is_interactive_element (ty : String) (frame : FrameD)
    (enabled : Bool := true) (visible : Bool := true) : Bool :=
  if !enabled || !visible then false
  else if !(INTERACTIVE_ELEMENT_TYPES.contains ty) then false
  else if frame.width.getD 0 < 10 || frame.height.getD 0 < 10 then false
  else true

/-- The scaled corner rectangle `[x, y, x+width, y+height]` drawn by
    `IOSTree.annotated_screenshot` for one element (the body of the
    `if not element.interactive: continue` loop's draw call). -/
def scaledBox (scale : Int) (e : IOSElement) : Int × Int × Int × Int :=
  (getFX e.frame * scale, getFY e.frame * scale,
   getFX e.frame * scale + getFW e.frame * scale,
   getFY e.frame * scale + getFH e.frame * scale)

/-- The index numbers printed by the `Interactive Elements:` section of
    `TreeState.to_string` (src/tree/__init__.py lines 100-108): element `i`
    of `interactive_elements` is printed with number `i + 1` (the line text
    itself is `interactiveLine i`). -/
def ios_serial_numbers (elements : List IOSElement) : List Nat :=
  elements.enum.map fun p => p.1 + 1

end IOS

namespace Chrome

/-- The attribute keys of a DOM element that `_is_interactive_element`
    reads: `type`, `onclick` and `role` (`attributes.get(...)` returns
    `None` for an absent key; the parse loop only stores truthy values,
    which the `getD ""` defaults below make irrelevant). -/
structure AttrBag where
  ty : Option String
  onclick : Option String
  role : Option String
deriving Repr, DecidableEq

/-- An element's `location` dictionary. -/
structure LocationD where
  x : Option Int
  y : Option Int
deriving Repr, DecidableEq

/-- An element's `size` dictionary. -/
structure SizeD where
  width : Option Int
  height : Option Int
deriving Repr, DecidableEq

/-- Embeds `WebElement` (src/page/__init__.py lines 16-59), keeping the fields the
    classifier, renderer and state read. -/
structure WebElement where
  id : String
  tag_name : String
  text : String
  attrs : AttrBag
  location : LocationD
  size : SizeD
  visible : Bool
  enabled : Bool
  interactive : Bool
deriving Repr, DecidableEq

/-- Embeds `WebElement.bounds`: `(x, y, width, height)` with 0 defaults. -/
def WebElement.bounds (e : WebElement) : Int × Int × Int × Int :=
  (e.location.x.getD 0, e.location.y.getD 0,
   e.size.width.getD 0, e.size.height.getD 0)

/-- Embeds `WebElement.center`: `(x + width // 2, y + height // 2)` with Python
    floor division. -/
def WebElement.center (e : WebElement) : Int × Int :=
  (e.location.x.getD 0 + (e.size.width.getD 0).fdiv 2,
   e.location.y.getD 0 + (e.size.height.getD 0).fdiv 2)

/-- Embeds `PageTree.interactive_tags` (src/page/__init__.py lines 110-115). -/
def interactiveTags : List String :=
  ["a", "button", "input", "textarea", "select", "option", "label", "form",
   "fieldset", "legend", "details", "summary", "menuitem", "area", "canvas",
   "audio", "video", "iframe", "embed", "object"]

/-- Embeds `PageTree.interactive_types` (src/page/__init__.py lines 116-121). -/
def interactiveTypes : List String :=
  ["button", "submit", "reset", "image", "checkbox", "radio", "text",
   "password", "email", "number", "tel", "url", "search", "date", "time",
   "datetime-local", "month", "week", "color", "file", "range"]

/-- The role whitelist of `_is_interactive_element` (line 240). -/
def interactiveRoles : List String :=
  ["button", "link", "menuitem", "tab", "option"]

/-- Embeds `PageTree._is_interactive_element` (src/page/__init__.py lines 207-244):
    a pure predicate over tag name, attributes, visibility, enabledness and
    size, with a 5-pixel minimum size. -/
def is_interactive_element (tag_name : String) (attrs : AttrBag)
    (visible enabled : Bool) (size : SizeD) : Bool :=
  if !visible || !enabled then false
  else if size.width.getD 0 < 5 || size.height.getD 0 < 5 then false
  else if interactiveTags.contains tag_name.toLower then true
  else if interactiveTypes.contains ((attrs.ty.getD "").toLower) then true
  else if truthy attrs.onclick then true
  else if interactiveRoles.contains ((attrs.role.getD "").toLower) then true
  else false

/-- The stored-flag form of the classifier, as applied by `_parse_elements`
    (line 183) and re-checked by `annotated_screenshot`. -/
def classify (e : WebElement) : Bool :=
  is_interactive_element e.tag_name e.attrs e.visible e.enabled e.size

/-- The rectangle-draw commands of `PageTree.annotated_screenshot`
    (src/page/__init__.py lines 283-303): skip non-interactive elements,
    scale the bounds, SKIP any element whose scaled box extends outside the
    `imgW × imgH` screenshot, then draw `[x, y, x+width, y+height]`
    labelled `i + 1`. Modelled at integer scales. -/
def chrome_drawn (scale imgW imgH : Int) (elements : List WebElement) :
    List (Nat × (Int × Int × Int × Int)) :=
  elements.enum.filterMap fun p =>
    if !p.2.interactive then none
    else
      let x := (p.2.bounds).1 * scale
      let y := (p.2.bounds).2.1 * scale
      let w := (p.2.bounds).2.2.1 * scale
      let h := (p.2.bounds).2.2.2 * scale
      if x < 0 || y < 0 || x + w > imgW || y + h > imgH then none
      else some (p.1 + 1, (x, y, x + w, y + h))

/-- Embeds `PageState` (src/page/__init__.py lines 62-69); its `page_info`
    dictionary is kept as the `title`/`url` pair read by `to_string`, and
    the timestamp is not modelled. -/
structure PageState where
  elements : List WebElement
  interactive_elements : List WebElement
  title : String
  url : String
deriving Repr, DecidableEq

/-- Embeds `PageTree.get_state` (src/page/__init__.py lines 126-153): the
    whole body is wrapped in `try`; `fetch` bundles everything obtained
    from the driver (the parsed elements with their stored interactive
    flags, and the page info), and `Except.error` covers any exception,
    after which a minimal error state is returned. `interactive_elements`
    is the list comprehension `[elem for elem in elements if
    elem.interactive]`. -/
def get_state (fetch : Except String (List WebElement × String × String)) :
    PageState :=
  match fetch with
  | .ok (elements, title, url) =>
    { elements := elements,
      interactive_elements := elements.filter (·.interactive),
      title := title, url := url }
  | .error _ =>
    { elements := [], interactive_elements := [],
      title := "Error", url := "about:blank" }

/-- The index numbers printed by the `Interactive Elements:` section of
    `PageState.to_string` (src/page/__init__.py lines 80-90): element `i`
    of `interactive_elements` is printed with number `i + 1`. -/
def chrome_serial_numbers (elements : List WebElement) : List Nat :=
  elements.enum.map fun p => p.1 + 1

end Chrome

namespace Mac

/-- A Mac element's `bounds` dictionary (`bounds.get(key, 0)` defaults). -/
structure MacBounds where
  x : Option Int
  y : Option Int
  width : Option Int
  height : Option Int
deriving Repr, DecidableEq

/-- Embeds `InteractiveElement` (src/page.py lines 15-32); the field `ty` embeds
    the Python field `type`. The `properties` bag is not read by the code
    modelled here. -/
structure InteractiveElement where
  id : String
  ty : String
  text : String
  bounds : MacBounds
deriving Repr, DecidableEq

/-- The rectangle-draw commands of `PageTree.annotated_screenshot`
    (src/page.py lines 371-404): only the FIRST 20 elements are considered
    (`elements[:20]`), and a box is drawn only when its scaled width and
    height are both positive; the label is `i + 1`. Modelled at integer
    scales. -/
def mac_drawn (scale : Int) (elements : List InteractiveElement) :
    List (Nat × (Int × Int × Int × Int)) :=
  (elements.take 20).enum.filterMap fun p =>
    let x := (p.2.bounds.x.getD 0) * scale
    let y := (p.2.bounds.y.getD 0) * scale
    let w := (p.2.bounds.width.getD 0) * scale
    let h := (p.2.bounds.height.getD 0) * scale
    if 0 < w && 0 < h then some (p.1 + 1, (x, y, x + w, y + h)) else none

/-- The index numbers printed by `PageState.to_string` (src/page.py lines
    50-52): only the first 10 elements get a line, numbered `i + 1`. -/
def mac_serial_numbers (elements : List InteractiveElement) : List Nat :=
  (elements.take 10).enum.map fun p => p.1 + 1

/-- The scaled corner rectangle that `annotated_screenshot` would draw for
    one Mac element (the body of the positive-size branch). -/
def boxAt (scale : Int) (e : InteractiveElement) : Int × Int × Int × Int :=
  ((e.bounds.x.getD 0) * scale, (e.bounds.y.getD 0) * scale,
   (e.bounds.x.getD 0) * scale + (e.bounds.width.getD 0) * scale,
   (e.bounds.y.getD 0) * scale + (e.bounds.height.getD 0) * scale)

end Mac

/- Concrete test data for the closed statements below. -/

/-- A frame dictionary with all four keys present. -/
def frD (x y w h : Int) : IOS.FrameD := ⟨some x, some y, some w, some h⟩

/-- The spec's synthetic 2-level iOS tree: parent frame
    `{x:10,y:20,w:100,h:100}`, child relative frame `{x:5,y:5,w:10,h:10}`. -/
def iosTree2 : IOS.Src :=
  .node none none none none (some (frD 10 20 100 100)) none none
    [.node none none none none (some (frD 5 5 10 10)) none none []]

/-- A 3-level iOS tree: root frame `{x:10,y:20}`, child at relative
    `{x:5,y:5}`, grandchild at relative `{x:1,y:1}`; summing all ancestor
    offsets would put the grandchild at absolute `(16, 26)`. -/
def iosTree3 : IOS.Src :=
  .node none none none none (some (frD 10 20 100 100)) none none
    [.node none none none none (some (frD 5 5 50 50)) none none
      [.node none none none none (some (frD 1 1 10 10)) none none []]]

/-- The button node of the spec's end-to-end Android scenario. -/
def okNode : Android.NodeAttrs :=
  { text := some "OK", contentDesc := none,
    className := some "android.widget.Button", bounds := some "[0,0][50,50]",
    visibleToUser := some "true", enabled := some "true" }

/-- A visible, enabled node with no text, no content-desc and a layout
    class outside any plausible whitelist: never a candidate. -/
def plainNode : Android.NodeAttrs :=
  { text := none, contentDesc := none,
    className := some "android.widget.FrameLayout",
    bounds := some "[0,0][100,100]",
    visibleToUser := some "true", enabled := some "true" }

/-- The 3-node Android dump of the spec's end-to-end scenario: one button
    and two non-interactive nodes. -/
def androidDoc3 : List Android.Xml :=
  [Android.Xml.node plainNode
    [Android.Xml.node okNode [], Android.Xml.node plainNode []]]

/-- The element produced for `okNode`. -/
def okElem : Android.ElementNode := ⟨some "OK", ⟨25, 25⟩, ⟨0, 0, 50, 50⟩⟩

/-- A visible, enabled candidate node (truthy text) whose bounds string
    does not match the bracket pattern. -/
def garbageNode : Android.NodeAttrs :=
  { text := some "x", contentDesc := none, className := none,
    bounds := some "garbage",
    visibleToUser := some "true", enabled := some "true" }

/-- A dump containing only `garbageNode`. -/
def garbageDoc : List Android.Xml := [Android.Xml.node garbageNode []]

/-- A candidate node whose bounds corners are reversed: the bracket pattern
    matches, but `x1 > x2` and `y1 > y2`. -/
def revNode : Android.NodeAttrs :=
  { text := some "x", contentDesc := none, className := none,
    bounds := some "[50,50][10,10]",
    visibleToUser := some "true", enabled := some "true" }

/-- The element produced for `revNode`: an un-normalized box. -/
def revElem : Android.ElementNode := ⟨some "x", ⟨30, 30⟩, ⟨50, 50, 10, 10⟩⟩

/-- A visible, enabled node with truthy text and a zero-width box. -/
def zeroWidthNode : Android.NodeAttrs :=
  { text := some "OK", contentDesc := none, className := none,
    bounds := some "[0,0][0,50]",
    visibleToUser := some "true", enabled := some "true" }

/-- The element produced for `zeroWidthNode`. -/
def zeroWidthElem : Android.ElementNode := ⟨some "OK", ⟨0, 25⟩, ⟨0, 0, 0, 50⟩⟩

/-- An element whose box lies entirely to the right of a 100×200 screen. -/
def farElem : Android.ElementNode := ⟨some "far", ⟨105, 5⟩, ⟨100, 0, 110, 10⟩⟩

/-- A Mac interactive element with zero width. -/
def macZeroElem : Mac.InteractiveElement :=
  ⟨"e1", "button", "Trash", ⟨some 5, some 5, some 0, some 40⟩⟩

/-- A Mac interactive element with a positive-size box. -/
def macBtnElem : Mac.InteractiveElement :=
  ⟨"e2", "button", "Dock", ⟨some 5, some 5, some 30, some 40⟩⟩

/-- The scenario's button viewed as an iOS element (for the serializer
    format comparison). -/
def okIosElem : IOS.IOSElement :=
  { id := "", name := "OK", label := "", className := "android.widget.Button",
    frame := some (frD 0 0 50 50), enabled := true, visible := true,
    interactive := false }

/-- An interactive Chrome button well inside a 100×100 screenshot. -/
def chromeBtn : Chrome.WebElement :=
  { id := "b1", tag_name := "button", text := "Go", attrs := ⟨none, none, none⟩,
    location := ⟨some 10, some 10⟩, size := ⟨some 30, some 20⟩,
    visible := true, enabled := true, interactive := true }

/-- An interactive iOS element with a positive-size frame. -/
def iosBtnElem : IOS.IOSElement :=
  { id := "b2", name := "Go", label := "", className := "XCUIElementTypeButton",
    frame := some (frD 5 5 30 40), enabled := true, visible := true,
    interactive := true }

/- Helper lemmas, shared by the claim theorems below. -/

/-- Floor-division form of the corner-midpoint identity:
    `(x + (x + w)) // 2 = x + w // 2`. -/
theorem fdiv_midpoint (x w : Int) : (x + (x + w)).fdiv 2 = x + w.fdiv 2 := by
  rw [Int.fdiv_eq_ediv _ (by norm_num), Int.fdiv_eq_ediv _ (by norm_num)]
  omega

/-- Membership in `List.enum` determines the entry at that index. -/
theorem mem_enum_get {α : Type} {l : List α} {i : Nat} {x : α}
    (h : (i, x) ∈ l.enum) : ∃ hh : i < l.length, l.get ⟨i, hh⟩ = x := by
  have h2 := List.mk_mem_enum_iff_getElem?.mp h
  have hlen : i < l.length := by
    by_contra hc
    rw [List.getElem?_eq_none (by omega)] at h2
    exact Option.noConfusion h2
  refine ⟨hlen, ?_⟩
  have h3 := List.getElem?_eq_getElem hlen ▸ h2
  simpa [List.get_eq_getElem] using h3

/-- Unfolding `get_interactive_elements` at a candidate head node. -/
theorem gie_cons_pos {wl : List String} {a : Android.NodeAttrs}
    (rest : List Android.NodeAttrs) (hc : Android.isCandidate wl a = true) :
    Android.get_interactive_elements wl (a :: rest) =
      (Android.processNode a).bind fun e =>
        (Android.get_interactive_elements wl rest).bind fun es =>
          some (e :: es) := by
  simp [Android.get_interactive_elements, hc]

/-- Unfolding `get_interactive_elements` at a non-candidate head node. -/
theorem gie_cons_neg {wl : List String} {a : Android.NodeAttrs}
    (rest : List Android.NodeAttrs) (hc : Android.isCandidate wl a = false) :
    Android.get_interactive_elements wl (a :: rest) =
      Android.get_interactive_elements wl rest := by
  simp [Android.get_interactive_elements, hc]

/-- Characterization of a successful `processNode`. -/
theorem processNode_some {a : Android.NodeAttrs} {e : Android.ElementNode}
    (h : Android.processNode a = some e) :
    ∃ bs q, a.bounds = some bs ∧ Android.extract_cordinates bs = some q ∧
      e = ⟨if truthy a.text then a.text else a.contentDesc,
           ⟨(q.1 + q.2.2.1) / 2, (q.2.1 + q.2.2.2) / 2⟩,
           ⟨q.1, q.2.1, q.2.2.1, q.2.2.2⟩⟩ := by
  unfold Android.processNode at h
  cases hb : a.bounds with
  | none => rw [hb] at h; cases h
  | some bs =>
    rw [hb] at h
    cases hq : Android.extract_cordinates bs with
    | none => simp [hq] at h
    | some q =>
      obtain ⟨x1, y1, x2, y2⟩ := q
      simp [hq, Android.get_center_cordinates] at h
      exact ⟨bs, (x1, y1, x2, y2), rfl, hq, h.symm⟩

/-- A node with truthy text is a candidate for every whitelist. -/
theorem garbage_is_candidate (wl : List String) :
    Android.isCandidate wl garbageNode = true := by
  simp [Android.isCandidate, garbageNode, truthy]

/-- Embeds `get_interactive_elements` raises (returns `none`) on `garbageNode`
    for every whitelist. -/
theorem garbage_gie (wl : List String) :
    Android.get_interactive_elements wl [garbageNode] = none := by
  rw [gie_cons_pos [] (garbage_is_candidate wl)]
  have h : Android.processNode garbageNode = none := by decide
  simp [h]

/-- Embeds `Mobile.get_state` raises on the garbage dump for every whitelist. -/
theorem garbage_call (wl : List String) :
    Android.mobile_get_state wl (Except.ok garbageDoc) = none := by
  have hf : Android.findallVisibleEnabled garbageDoc = [garbageNode] := by
    decide
  simp [Android.mobile_get_state, Android.get_state, hf, garbage_gie wl]

/-- A degenerate absolute frame always yields `interactive = False` in the
    iOS `_create_element` flag. -/
theorem interactiveFlag_degenerate (en vis : Bool) (c : String)
    (af : Option IOS.FrameD)
    (h : IOS.getFW af ≤ 0 ∨ IOS.getFH af ≤ 0) :
    IOS.interactiveFlag en vis c af = false := by
  unfold IOS.interactiveFlag
  rcases h with h | h
  · have hw : decide (IOS.getFW af > 0) = false := by
      simpa using (by omega : ¬ IOS.getFW af > 0)
    simp [hw]
  · have hh : decide (IOS.getFH af > 0) = false := by
      simpa using (by omega : ¬ IOS.getFH af > 0)
    simp [hh]

/-- Mapping `i + 1` over the indices of `List.enum` counts 1, 2, ... -/
theorem enum_succ_numbers {α : Type} (l : List α) :
    l.enum.map (fun p : Nat × α => p.1 + 1) = List.range' 1 l.length := by
  have h : (fun p : Nat × α => p.1 + 1) = (fun n => n + 1) ∘ Prod.fst := rfl
  rw [h, ← List.map_map, List.enum_map_fst, List.range'_eq_map_range]
  congr 1
  funext n
  omega

/-- A `filterMap` that never drops is a `map`. -/
theorem filterMap_all_some {α β : Type} (f : α → Option β) (g : α → β)
    (l : List α) (h : ∀ x ∈ l, f x = some (g x)) :
    l.filterMap f = l.map g := by
  induction l with
  | nil => rfl
  | cons a t ih =>
    rw [List.filterMap_cons, h a (List.mem_cons_self a t), List.map_cons,
      ih fun x hx => h x (List.mem_cons_of_mem a hx)]

/-- Every box drawn by the Chrome renderer lies fully inside the
    `imgW × imgH` screenshot (the source skips any other element). -/
theorem chrome_drawn_inside (scale imgW imgH : Int)
    (els : List Chrome.WebElement) (p : Nat × Int × Int × Int × Int)
    (hp : p ∈ Chrome.chrome_drawn scale imgW imgH els) :
    0 ≤ p.2.1 ∧ 0 ≤ p.2.2.1 ∧ p.2.2.2.1 ≤ imgW ∧ p.2.2.2.2 ≤ imgH := by
  unfold Chrome.chrome_drawn at hp
  obtain ⟨⟨i, e⟩, hmem, hf⟩ := List.mem_filterMap.mp hp
  simp only at hf
  by_cases hi : e.interactive
  · rw [hi] at hf
    simp only [Bool.not_true, Bool.false_eq_true, if_false] at hf
    split at hf
    · cases hf
    · rename_i hcond
      have hc2 : ((0 ≤ e.bounds.1 * scale ∧ 0 ≤ e.bounds.2.1 * scale) ∧
          e.bounds.1 * scale + e.bounds.2.2.1 * scale ≤ imgW) ∧
          e.bounds.2.1 * scale + e.bounds.2.2.2 * scale ≤ imgH := by
        simpa using hcond
      have hp2 := Option.some_injective _ hf
      rw [← hp2]
      exact ⟨hc2.1.1.1, hc2.1.1.2, hc2.1.2, hc2.2⟩
  · rw [Bool.not_eq_true] at hi
    rw [hi] at hf
    simp at hf

/-- When every node in the list is interactive (as when the renderer is
    handed `interactive_elements`), the iOS renderer draws one box per
    node, labelled by its 1-based position. -/
theorem ios_drawn_all (scale : Int) (nodes : List IOS.IOSElement)
    (hint : ∀ e ∈ nodes, e.interactive = true) :
    IOS.ios_drawn scale nodes
      = nodes.enum.map fun p => (p.1 + 1, IOS.scaledBox scale p.2) := by
  unfold IOS.ios_drawn
  apply filterMap_all_some
  intro x hx
  obtain ⟨i, e⟩ := x
  obtain ⟨hh, hget⟩ := mem_enum_get hx
  have he : e ∈ nodes := by
    rw [← hget]
    exact List.get_mem nodes i hh
  have hie := hint e he
  simp [hie, IOS.scaledBox]

/- Claim theorems. -/

/-- C1: the iOS hierarchy walk does NOT sum the parent's previously-computed
    absolute offsets: `_parse_elements` hands each child the parent's RAW frame.
    On the spec's 2-level tree the child's absolute box is (15,25,25,35) as
    claimed, but on a 3-level tree the grandchild's frame origin comes out
    as (6,6) — its own offset plus its parent's raw relative offset —
    instead of the full ancestor sum (16,26), while pre-order is kept. -/
theorem c1_ios_offset_bug :
    (IOS.parse_elements iosTree2 none).map IOS.IOSElement.bounds
        = [(10, 20, 100, 100), (15, 25, 10, 10)] ∧
    (IOS.parse_elements iosTree2 none).map IOS.IOSElement.cornerBox
        = [(10, 20, 110, 120), (15, 25, 25, 35)] ∧
    (IOS.parse_elements iosTree3 none).map IOS.IOSElement.bounds
        = [(10, 20, 100, 100), (15, 25, 50, 50), (6, 6, 10, 10)] ∧
    ((6 : Int), (6 : Int)) ≠ ((16 : Int), (26 : Int)) :=
  ⟨by decide, by decide, by decide, by decide⟩

/-- C2: a bounds string matching the four-integer bracket pattern parses to
    exactly those integers, and a non-matching string makes
    `extract_cordinates` return `None` — but the caller then CRASHES
    unpacking it (`x1,y1,x2,y2 = None`), for every whitelist, so the node is
    not merely excluded: the whole `get_state` call raises. -/
theorem c2_android_bounds_crash :
    Android.extract_cordinates "[10,20][110,220]" = some (10, 20, 110, 220) ∧
    Android.extract_cordinates "garbage" = none ∧
    (∀ wl, Android.get_interactive_elements wl [garbageNode] = none) ∧
    (∀ wl, Android.mobile_get_state wl (Except.ok garbageDoc) = none) :=
  ⟨by decide, by decide, garbage_gie, garbage_call⟩

/-- C3 counterexample: a Mac state with one interactive element of zero
    width draws zero boxes, so the number of boxes drawn differs from
    `len(interactive_elements)`. -/
theorem c3_counterexample :
    Mac.mac_drawn 1 [macZeroElem] = [] ∧
    ([macZeroElem] : List Mac.InteractiveElement).length = 1 :=
  ⟨by decide, rfl⟩

/-- C5 counterexample: on the spec's end-to-end Android scenario the
    serialized interactive list is `Label: 0 Name: OK Coordinates: (25,25)`,
    not the claimed `1. android.widget.Button` quoted-name corner-box line. -/
theorem c5_counterexample :
    (Android.get_state Android.INTERACTIVE_CLASSES androidDoc3).map
        Android.TreeState.to_string
      = some "Label: 0 Name: OK Coordinates: (25,25)" ∧
    ("Label: 0 Name: OK Coordinates: (25,25)" : String) ≠
      "1. android.widget.Button " ++ sQuote ++ "OK" ++ sQuote ++
        " at (0, 0, 50, 50)" :=
  ⟨by decide, by decide⟩

/-- C5 amended: the Android serializer prints
    `Label: {i} Name: {name} Coordinates: ({cx},{cy})` with 0-based index
    and center coordinates (and the scenario's interactive list is exactly
    the OK element with box (0,0,50,50) and center (25,25)); the
    `index. type quoted-name at (...)` shape belongs to the iOS serializer,
    which prints `(x, y, width, height)` — for this button it coincides
    with the corner tuple only because x = y = 0. -/
theorem c5_amended_formats :
    (Android.get_state Android.INTERACTIVE_CLASSES androidDoc3).map
        (fun ts => ts.interactive_elements) = some [okElem] ∧
    (Android.get_state Android.INTERACTIVE_CLASSES androidDoc3).map
        Android.TreeState.to_string
      = some "Label: 0 Name: OK Coordinates: (25,25)" ∧
    IOS.interactiveLine 0 okIosElem
      = "1. android.widget.Button " ++ sQuote ++ "OK" ++ sQuote ++
          " at (0, 0, 50, 50)\n" :=
  ⟨by decide, by decide, by decide⟩

/-- C6 counterexample: when the Android hierarchy dump throws, the Android
    `Mobile.get_state` does not return an empty `TreeState` — it re-raises
    (modelled as `none`). -/
theorem c6_counterexample :
    Android.mobile_get_state Android.INTERACTIVE_CLASSES
        (Except.error "ConnectError") = none := rfl

/-- C6 amended: only iOS degrades — any exception inside the iOS
    `get_state` (including the driver fetch) yields the default empty state
    with window size (375, 667); on Android both a wholesale dump failure
    and a mere per-node bounds-parse failure propagate out of
    `Mobile.get_state` as a `RuntimeError`. -/
theorem c6_error_policy :
    (∀ e, IOS.get_state (Except.error e)
        = ⟨[], [], (375, 667), "PORTRAIT"⟩) ∧
    (∀ wl e, Android.mobile_get_state wl (Except.error e) = none) ∧
    (∀ wl, Android.mobile_get_state wl (Except.ok garbageDoc) = none) :=
  ⟨fun _ => rfl, fun _ _ => rfl, garbage_call⟩

/-- C8 counterexample: `farElem`'s box (100,0,110,10) lies entirely outside
    a 100×200 screenshot at scale 1, yet the Android renderer draws it at
    (115,15,125,25), which falls inside the 130×230 padded output canvas —
    the box does appear in the output image. -/
theorem c8_counterexample :
    boxMeetsCanvas 100 200 (100, 0, 110, 10) = false ∧
    Android.drawnBoxes 1 [farElem] = [(0, (115, 15, 125, 25))] ∧
    Android.paddedCanvas 1 100 200 = (130, 230) ∧
    boxMeetsCanvas 130 230 (115, 15, 125, 25) = true :=
  ⟨by decide, by decide, by decide, by decide⟩

/-- C9: the interactivity classifiers are pure predicates — re-running a
    classifier over its own output changes nothing (filter idempotence),
    for both the Chrome DOM classifier and the iOS utils classifier. -/
theorem c9_classifier_idempotent :
    (∀ l : List Chrome.WebElement,
      (l.filter Chrome.classify).filter Chrome.classify
        = l.filter Chrome.classify) ∧
    (∀ l : List (String × IOS.FrameD × Bool × Bool),
      (l.filter fun t => IOS.is_interactive_element t.1 t.2.1 t.2.2.1 t.2.2.2).filter
          (fun t => IOS.is_interactive_element t.1 t.2.1 t.2.2.1 t.2.2.2)
        = l.filter fun t => IOS.is_interactive_element t.1 t.2.1 t.2.2.1 t.2.2.2) := by
  constructor
  · intro l
    simp [List.filter_filter]
  · intro l
    simp [List.filter_filter]

/-- C4 counterexample: on Android a visible, enabled node with non-empty
    text and a zero-width box (bounds `[0,0][0,50]`) is still emitted as an
    interactive element — the Android pipeline has no size check at all. -/
theorem c4_counterexample :
    Android.get_interactive_elements [] [zeroWidthNode]
        = some [zeroWidthElem] ∧
    zeroWidthElem.bounding_box.x1 = zeroWidthElem.bounding_box.x2 :=
  ⟨by decide, rfl⟩

/-- C4 amended: the iOS and Chrome classifiers never mark a zero-width or
    zero-height element interactive (`_create_element` requires positive
    width and height; the iOS utils classifier requires at least 10px;
    Chrome requires at least 5px), but the Android pipeline performs no
    size check (see the counterexample). -/
theorem c4_degenerate_box :
    (∀ idf nm lb ty fr en vis pf,
      IOS.getFW (IOS.create_element idf nm lb ty fr en vis pf).frame ≤ 0 ∨
        IOS.getFH (IOS.create_element idf nm lb ty fr en vis pf).frame ≤ 0 →
      (IOS.create_element idf nm lb ty fr en vis pf).interactive = false) ∧
    (∀ ty frame en vis,
      frame.width.getD 0 ≤ 0 ∨ frame.height.getD 0 ≤ 0 →
      IOS.is_interactive_element ty frame en vis = false) ∧
    (∀ tag attrs vis en size,
      size.width.getD 0 ≤ 0 ∨ size.height.getD 0 ≤ 0 →
      Chrome.is_interactive_element tag attrs vis en size = false) := by
  refine ⟨?_, ?_, ?_⟩
  · intro idf nm lb ty fr en vis pf h
    exact interactiveFlag_degenerate _ _ _ _ h
  · intro ty frame en vis h
    unfold IOS.is_interactive_element
    have hsz : (frame.width.getD 0 < 10 || frame.height.getD 0 < 10) = true := by
      rcases h with h | h <;> simp <;> omega
    cases hb : (!en || !vis) <;>
      cases ht : !(IOS.INTERACTIVE_ELEMENT_TYPES.contains ty) <;>
        simp [hb, ht, hsz]
  · intro tag attrs vis en size h
    unfold Chrome.is_interactive_element
    have hsz : (size.width.getD 0 < 5 || size.height.getD 0 < 5) = true := by
      rcases h with h | h <;> simp <;> omega
    cases hb : (!vis || !en) <;> simp [hb, hsz]

/-- C4 witness: concrete zero-size inputs on all three classifiers. -/
theorem c4_degenerate_box_witness :
    (IOS.create_element none none none (some "XCUIElementTypeButton")
        (some (frD 0 0 0 40)) none none none).interactive = false ∧
    IOS.is_interactive_element "XCUIElementTypeButton" (frD 0 0 0 40)
        true true = false ∧
    Chrome.is_interactive_element "button" ⟨none, none, none⟩ true true
        ⟨some 0, some 40⟩ = false :=
  ⟨c4_degenerate_box.1 none none none (some "XCUIElementTypeButton")
      (some (frD 0 0 0 40)) none none none (Or.inl (by decide)),
   c4_degenerate_box.2.1 "XCUIElementTypeButton" (frD 0 0 0 40) true true
      (Or.inl (by decide)),
   c4_degenerate_box.2.2 "button" ⟨none, none, none⟩ true true
      ⟨some 0, some 40⟩ (Or.inl (by decide))⟩

/-- C7 counterexample: the bounds string `[50,50][10,10]` matches the
    bracket pattern, and the produced element has `x2 < x1` — nothing in
    the pipeline enforces `x1 ≤ x2`. -/
theorem c7_counterexample :
    Android.get_interactive_elements [] [revNode] = some [revElem] ∧
    revElem.bounding_box.x2 < revElem.bounding_box.x1 :=
  ⟨by decide, by decide⟩

/-- C7 amended: the center is always recomputed from the final box with
    floor division — Android stores `((x1+x2)//2, (y1+y2)//2)` in every
    produced element, and the iOS/Chrome derived `center` properties equal
    the floor-division midpoints of the drawn corner box — but `x1 ≤ x2`
    and `y1 ≤ y2` are NOT enforced (see the counterexample). -/
theorem c7_center_recompute :
    (∀ wl nodes out, Android.get_interactive_elements wl nodes = some out →
      ∀ el ∈ out,
        el.coordinates.x = (el.bounding_box.x1 + el.bounding_box.x2) / 2 ∧
        el.coordinates.y = (el.bounding_box.y1 + el.bounding_box.y2) / 2) ∧
    (∀ e : IOS.IOSElement,
      e.center = ((e.cornerBox.1 + e.cornerBox.2.2.1).fdiv 2,
                  (e.cornerBox.2.1 + e.cornerBox.2.2.2).fdiv 2)) ∧
    (∀ e : Chrome.WebElement,
      e.center.1 = (e.bounds.1 + (e.bounds.1 + e.bounds.2.2.1)).fdiv 2 ∧
      e.center.2 = (e.bounds.2.1 + (e.bounds.2.1 + e.bounds.2.2.2)).fdiv 2) := by
  refine ⟨?_, ?_, ?_⟩
  · intro wl nodes
    induction nodes with
    | nil =>
      intro out h el hel
      simp [Android.get_interactive_elements] at h
      subst h
      simp at hel
    | cons a rest ih =>
      intro out h el hel
      cases hc : Android.isCandidate wl a with
      | false =>
        rw [gie_cons_neg rest hc] at h
        exact ih out h el hel
      | true =>
        rw [gie_cons_pos rest hc] at h
        cases hpn : Android.processNode a with
        | none => rw [hpn] at h; cases h
        | some e =>
          rw [hpn] at h
          cases hr : Android.get_interactive_elements wl rest with
          | none => rw [hr] at h; cases h
          | some es =>
            rw [hr] at h
            simp at h
            subst h
            rcases List.mem_cons.mp hel with rfl | hel2
            · obtain ⟨bs, q, hbs, hq, rfl⟩ := processNode_some hpn
              exact ⟨rfl, rfl⟩
            · exact ih es hr el hel2
  · intro e
    have h1 := fdiv_midpoint (IOS.getFX e.frame) (IOS.getFW e.frame)
    have h2 := fdiv_midpoint (IOS.getFY e.frame) (IOS.getFH e.frame)
    simp [IOS.IOSElement.center, IOS.IOSElement.cornerBox, h1, h2]
  · intro e
    constructor
    · have h1 := fdiv_midpoint (e.location.x.getD 0) (e.size.width.getD 0)
      simp [Chrome.WebElement.center, Chrome.WebElement.bounds, h1]
    · have h2 := fdiv_midpoint (e.location.y.getD 0) (e.size.height.getD 0)
      simp [Chrome.WebElement.center, Chrome.WebElement.bounds, h2]

/-- C7 witness: the scenario's OK element carries the recomputed center. -/
theorem c7_center_recompute_witness :
    okElem.coordinates.x = (okElem.bounding_box.x1 + okElem.bounding_box.x2) / 2 ∧
    okElem.coordinates.y = (okElem.bounding_box.y1 + okElem.bounding_box.y2) / 2 :=
  c7_center_recompute.1 [] [okNode] [okElem] (by decide) okElem (by decide)

/-- C10: on Android, whenever the call returns at all, every selected
    (visible-to-user, enabled) node with non-empty text or content-desc
    contributes its element to `interactive_elements` — for EVERY whitelist
    and with no minimum-size check — and the Android `TreeState` carries
    exactly this interactive list (there is no separate full-elements
    sequence). -/
theorem c10_android_text_included :
    (∀ wl nodes out, Android.get_interactive_elements wl nodes = some out →
      ∀ a ∈ nodes, (truthy a.text || truthy a.contentDesc) = true →
        ∃ el ∈ out, Android.processNode a = some el) ∧
    (∀ wl doc, (Android.get_state wl doc).map
        (fun ts => ts.interactive_elements)
      = Android.get_interactive_elements wl
          (Android.findallVisibleEnabled doc)) := by
  constructor
  · intro wl nodes
    induction nodes with
    | nil => intro out h a ha; simp at ha
    | cons b rest ih =>
      intro out h a ha ht
      cases hc : Android.isCandidate wl b with
      | false =>
        rw [gie_cons_neg rest hc] at h
        rcases List.mem_cons.mp ha with rfl | ha2
        · exfalso
          simp [Android.isCandidate] at hc
          rcases Bool.or_eq_true_iff.mp ht with h1 | h1 <;> simp [h1] at hc
        · exact ih out h a ha2 ht
      | true =>
        rw [gie_cons_pos rest hc] at h
        cases hpn : Android.processNode b with
        | none => rw [hpn] at h; cases h
        | some e =>
          rw [hpn] at h
          cases hr : Android.get_interactive_elements wl rest with
          | none => rw [hr] at h; cases h
          | some es =>
            rw [hr] at h
            simp at h
            subst h
            rcases List.mem_cons.mp ha with rfl | ha2
            · exact ⟨e, List.mem_cons_self _ _, hpn⟩
            · obtain ⟨el, hel, hp⟩ := ih es hr a ha2 ht
              exact ⟨el, List.mem_cons_of_mem _ hel, hp⟩
  · intro wl doc
    unfold Android.get_state
    cases hg : Android.get_interactive_elements wl
        (Android.findallVisibleEnabled doc) <;> simp [hg]

/-- C10 witness: the zero-width text node is included for the empty
    whitelist. -/
theorem c10_android_text_included_witness :
    ∃ el ∈ [zeroWidthElem], Android.processNode zeroWidthNode = some el :=
  c10_android_text_included.1 [] [zeroWidthNode] [zeroWidthElem] (by decide)
    zeroWidthNode (by decide) (by decide)

/-- C3 amended: `interactive_elements` is the stable order-preserving
    filter of `elements` by the interactive flag on iOS and Chrome (Android
    and Mac build only the interactive list); on every platform the label
    drawn for the element at position `i` of the passed interactive list
    equals the serialized index for that element — 0-based on Android,
    `i + 1` on iOS, Chrome and Mac (iOS draws every element of an
    all-interactive list, labelled by its 1-based position and matching
    `interactiveLine`'s numbering; each Chrome and Mac drawn label `i + 1`
    names the interactive element at position `i`); but the number of boxes
    drawn can be smaller than `len(interactive_elements)`: Mac draws only
    elements among the first 20 whose scaled width and height are positive
    (see the counterexample), and Chrome draws only boxes lying fully
    inside the screenshot. -/
theorem c3_index_consistency :
    (∀ fetch, (IOS.get_state fetch).interactive_elements
        = (IOS.get_state fetch).elements.filter (fun e => e.interactive)) ∧
    (∀ fetch, (Chrome.get_state fetch).interactive_elements
        = (Chrome.get_state fetch).elements.filter (fun e => e.interactive)) ∧
    (∀ scale nodes, (Android.drawnBoxes scale nodes).map Prod.fst
        = List.range nodes.length) ∧
    (∀ els, IOS.ios_serial_numbers els = List.range' 1 els.length) ∧
    (∀ els, Chrome.chrome_serial_numbers els = List.range' 1 els.length) ∧
    (∀ els, Mac.mac_serial_numbers els = List.range' 1 (min 10 els.length)) ∧
    (∀ scale nodes p, p ∈ IOS.ios_drawn scale nodes →
      ∃ i, ∃ hh : i < nodes.length, p.1 = i + 1 ∧
        (nodes.get ⟨i, hh⟩).interactive = true ∧
        IOS.scaledBox scale (nodes.get ⟨i, hh⟩) = p.2) ∧
    (∀ scale nodes, (∀ e ∈ nodes, e.interactive = true) →
      (IOS.ios_drawn scale nodes).length = nodes.length) ∧
    (∀ scale imgW imgH els p, p ∈ Chrome.chrome_drawn scale imgW imgH els →
      ∃ i, ∃ hh : i < els.length, p.1 = i + 1 ∧
        (els.get ⟨i, hh⟩).interactive = true) ∧
    (∀ scale imgW imgH els p, p ∈ Chrome.chrome_drawn scale imgW imgH els →
      0 ≤ p.2.1 ∧ 0 ≤ p.2.2.1 ∧ p.2.2.2.1 ≤ imgW ∧ p.2.2.2.2 ≤ imgH) ∧
    (∀ scale els, (Mac.mac_drawn scale els).length ≤ min 20 els.length) ∧
    (∀ scale els p, p ∈ Mac.mac_drawn scale els →
      ∃ i, ∃ hh : i < els.length, p.1 = i + 1 ∧ i < 20 ∧
        Mac.boxAt scale (els.get ⟨i, hh⟩) = p.2) := by
  refine ⟨?_, ?_, ?_, ?_, ?_, ?_, ?_, ?_, ?_, ?_, ?_, ?_⟩
  · intro fetch
    cases fetch <;> rfl
  · intro fetch
    cases fetch <;> rfl
  · intro scale nodes
    unfold Android.drawnBoxes
    rw [List.map_map]
    have h : (Prod.fst ∘ fun p : Nat × Android.ElementNode =>
        (p.1, Android.adjustedBox scale p.2.bounding_box)) = Prod.fst := rfl
    rw [h, List.enum_map_fst]
  · intro els
    unfold IOS.ios_serial_numbers
    exact enum_succ_numbers els
  · intro els
    unfold Chrome.chrome_serial_numbers
    exact enum_succ_numbers els
  · intro els
    unfold Mac.mac_serial_numbers
    rw [enum_succ_numbers, List.length_take]
  · intro scale nodes p hp
    unfold IOS.ios_drawn at hp
    obtain ⟨⟨i, e⟩, hmem, hf⟩ := List.mem_filterMap.mp hp
    obtain ⟨hh, hget⟩ := mem_enum_get hmem
    simp only at hf
    by_cases hie : e.interactive
    · rw [hie] at hf
      simp only [Bool.not_true, Bool.false_eq_true, if_false] at hf
      have hp2 := Option.some_injective _ hf
      refine ⟨i, hh, ?_, ?_, ?_⟩
      · rw [← hp2]
      · rw [hget]
        exact hie
      · rw [hget, ← hp2]
        rfl
    · rw [Bool.not_eq_true] at hie
      rw [hie] at hf
      simp at hf
  · intro scale nodes hint
    rw [ios_drawn_all scale nodes hint, List.length_map, List.enum_length]
  · intro scale imgW imgH els p hp
    unfold Chrome.chrome_drawn at hp
    obtain ⟨⟨i, e⟩, hmem, hf⟩ := List.mem_filterMap.mp hp
    obtain ⟨hh, hget⟩ := mem_enum_get hmem
    simp only at hf
    by_cases hie : e.interactive
    · rw [hie] at hf
      simp only [Bool.not_true, Bool.false_eq_true, if_false] at hf
      split at hf
      · cases hf
      · have hp2 := Option.some_injective _ hf
        refine ⟨i, hh, ?_, ?_⟩
        · rw [← hp2]
        · rw [hget]
          exact hie
    · rw [Bool.not_eq_true] at hie
      rw [hie] at hf
      simp at hf
  · exact chrome_drawn_inside
  · intro scale els
    unfold Mac.mac_drawn
    calc (List.filterMap _ _).length
        ≤ ((els.take 20).enum).length := List.length_filterMap_le _ _
      _ = min 20 els.length := by rw [List.enum_length, List.length_take]
  · intro scale els p hp
    unfold Mac.mac_drawn at hp
    obtain ⟨⟨i, e⟩, hmem, hf⟩ := List.mem_filterMap.mp hp
    obtain ⟨hlen, hget⟩ := mem_enum_get hmem
    have hlen2 : i < min 20 els.length := by
      rw [List.length_take] at hlen; exact hlen
    have hlen20 : i < 20 := by omega
    have hlenl : i < els.length := by omega
    refine ⟨i, hlenl, ?_, hlen20, ?_⟩
    · simp only at hf
      split at hf
      · exact (Option.some_injective _ hf.symm ▸ rfl)
      · cases hf
    · have hgetl : els.get ⟨i, hlenl⟩ = e := by
        rw [← hget]
        simp [List.get_eq_getElem, List.getElem_take']
      rw [hgetl]
      simp only at hf
      split at hf
      · have := Option.some_injective _ hf
        rw [← this]
        rfl
      · cases hf

/-- C3 witness: on each of iOS, Chrome and Mac, a singleton interactive
    list yields one drawn box labelled 1, belonging to element 0. -/
theorem c3_index_consistency_witness :
    (∃ i, ∃ hh : i < ([iosBtnElem] : List IOS.IOSElement).length,
      ((1, ((5 : Int), (5 : Int), (35 : Int), (45 : Int))) :
          Nat × Int × Int × Int × Int).1 = i + 1 ∧
      (([iosBtnElem] : List IOS.IOSElement).get ⟨i, hh⟩).interactive = true ∧
      IOS.scaledBox 1 (([iosBtnElem] : List IOS.IOSElement).get ⟨i, hh⟩)
        = ((1, ((5 : Int), (5 : Int), (35 : Int), (45 : Int))) :
            Nat × Int × Int × Int × Int).2) ∧
    (∃ i, ∃ hh : i < ([chromeBtn] : List Chrome.WebElement).length,
      ((1, ((10 : Int), (10 : Int), (40 : Int), (30 : Int))) :
          Nat × Int × Int × Int × Int).1 = i + 1 ∧
      (([chromeBtn] : List Chrome.WebElement).get ⟨i, hh⟩).interactive = true) ∧
    (∃ i, ∃ hh : i < ([macBtnElem] : List Mac.InteractiveElement).length,
      ((1, ((5 : Int), (5 : Int), (35 : Int), (45 : Int))) :
          Nat × Int × Int × Int × Int).1 = i + 1 ∧ i < 20 ∧
      Mac.boxAt 1 (([macBtnElem] : List Mac.InteractiveElement).get ⟨i, hh⟩)
        = ((1, ((5 : Int), (5 : Int), (35 : Int), (45 : Int))) :
            Nat × Int × Int × Int × Int).2) :=
  ⟨c3_index_consistency.2.2.2.2.2.2.1 1 [iosBtnElem]
      (1, (5, 5, 35, 45)) (by decide),
   c3_index_consistency.2.2.2.2.2.2.2.2.1 1 100 100 [chromeBtn]
      (1, (10, 10, 40, 30)) (by decide),
   c3_index_consistency.2.2.2.2.2.2.2.2.2.2.2 1 [macBtnElem]
      (1, (5, 5, 35, 45)) (by decide)⟩

/-- C8 amended: the Chrome renderer skips any interactive element whose
    scaled box is not fully inside the screenshot, so every drawn box lies
    within the image bounds and a fully-outside element is never drawn;
    the Android renderer instead draws one box per element with no bounds
    check whatsoever (its box count always equals the element count), which
    is how a fully-outside box reaches the padded output canvas (see the
    counterexample). -/
theorem c8_rendering :
    (∀ scale imgW imgH els p, p ∈ Chrome.chrome_drawn scale imgW imgH els →
      0 ≤ p.2.1 ∧ 0 ≤ p.2.2.1 ∧ p.2.2.2.1 ≤ imgW ∧ p.2.2.2.2 ≤ imgH) ∧
    (∀ scale nodes, (Android.drawnBoxes scale nodes).length = nodes.length) := by
  constructor
  · exact chrome_drawn_inside
  · intro scale nodes
    simp [Android.drawnBoxes]

/-- C8 witness: a Chrome button drawn at (10,10,40,30) lies inside the
    100×100 screenshot. -/
theorem c8_rendering_witness :
    0 ≤ (((1, ((10 : Int), (10 : Int), (40 : Int), (30 : Int))) :
        Nat × Int × Int × Int × Int)).2.1 ∧
    0 ≤ (((1, ((10 : Int), (10 : Int), (40 : Int), (30 : Int))) :
        Nat × Int × Int × Int × Int)).2.2.1 ∧
    (((1, ((10 : Int), (10 : Int), (40 : Int), (30 : Int))) :
        Nat × Int × Int × Int × Int)).2.2.2.1 ≤ 100 ∧
    (((1, ((10 : Int), (10 : Int), (40 : Int), (30 : Int))) :
        Nat × Int × Int × Int × Int)).2.2.2.2 ≤ 100 :=
  c8_rendering.1 1 100 100 [chromeBtn] (1, (10, 10, 40, 30)) (by decide)
